import Mathlib

/-!
Verification of the `kafka_multiple_topics` Home Assistant integration
(`src/custom_components/kafka_multiple_topics/__init__.py`).

The development shallowly embeds the integration's event encoder
(`KafkaManager._encode_event`), the route fan-out loop (`KafkaManager.write`)
and the lifecycle methods (`KafkaManager.start` / `KafkaManager.shutdown`),
together with the fragment of CPython's `json` module semantics that the
encoder relies on (`json.dumps` with a `default=` hook, and
`json.JSONEncoder.encode`).
-/

namespace KafkaMT

/-- A JSON value, as produced by CPython's `json.dumps` (we restrict numbers
to integers; no claim involves floats). Object fields keep insertion order,
as Python dicts do. -/
inductive JsonValue where
  | null : JsonValue
  | bool (b : Bool) : JsonValue
  | int (n : Int) : JsonValue
  | str (s : String) : JsonValue
  | arr (elems : List JsonValue) : JsonValue
  | obj (fields : List (String × JsonValue)) : JsonValue

/-- Four lowercase hex digits, as in Python's `\uXXXX` escapes. -/
def hex4 (n : Nat) : String :=
  String.mk [Nat.digitChar (n / 4096 % 16), Nat.digitChar (n / 256 % 16),
    Nat.digitChar (n / 16 % 16), Nat.digitChar (n % 16)]

/-- Escape one character the way CPython's `json.dumps` does with its default
`ensure_ascii=True`: `"` and `\` get a backslash, the usual control-character
shortcuts apply, and everything outside the printable ASCII range `0x20..0x7e`
becomes `\uXXXX` (a surrogate pair beyond the BMP). -/
def escChar (c : Char) : String :=
  if c = '"' then "\\\""
  else if c = '\\' then "\\\\"
  else if c = '\n' then "\\n"
  else if c = '\t' then "\\t"
  else if c = '\r' then "\\r"
  else if c.toNat = 8 then "\\b"
  else if c.toNat = 12 then "\\f"
  else if c.toNat < 0x20 then "\\u" ++ hex4 c.toNat
  else if c.toNat ≤ 0x7e then String.mk [c]
  else if c.toNat < 0x10000 then "\\u" ++ hex4 c.toNat
  else
    "\\u" ++ hex4 (0xd800 + (c.toNat - 0x10000) / 0x400)
      ++ "\\u" ++ hex4 (0xdc00 + (c.toNat - 0x10000) % 0x400)

/-- Serialize a string as a JSON string literal (quotes plus escapes),
as CPython's `json.encoder.py_encode_basestring_ascii` does. -/
def jsonQuote (s : String) : String :=
  "\"" ++ String.join (s.toList.map escChar) ++ "\""

mutual

/-- Serialize a `JsonValue` exactly as CPython's `json.dumps` does with its
default arguments: separators `", "` and `": "`, `ensure_ascii=True`,
insertion-ordered object keys. -/
def jsonDumps : JsonValue → String
  | JsonValue.null => "null"
  | JsonValue.bool true => "true"
  | JsonValue.bool false => "false"
  | JsonValue.int n => toString n
  | JsonValue.str s => jsonQuote s
  | JsonValue.arr es => "[" ++ jsonDumpsArr es ++ "]"
  | JsonValue.obj fs => "\x7b" ++ jsonDumpsObj fs ++ "\x7d"

/-- Comma-separated serialization of array elements. -/
def jsonDumpsArr : List JsonValue → String
  | [] => ""
  | [e] => jsonDumps e
  | e :: es => jsonDumps e ++ ", " ++ jsonDumpsArr es

/-- Comma-separated serialization of object fields, `"key": value` each. -/
def jsonDumpsObj : List (String × JsonValue) → String
  | [] => ""
  | [(k, v)] => jsonQuote k ++ ": " ++ jsonDumps v
  | (k, v) :: fs => jsonQuote k ++ ": " ++ jsonDumps v ++ ", " ++ jsonDumpsObj fs

end

/-- Look a key up in a JSON object's field list (first occurrence). -/
def jsonLookup (v : JsonValue) (key : String) : Option JsonValue :=
  match v with
  | JsonValue.obj fs => fs.lookup key
  | _ => Option.none

/-- A naive (timezone-free) Python `datetime.datetime`, the shape of the
date/time values that can occur in a state's attribute mapping. -/
structure PyDatetime where
  year : Nat
  month : Nat
  day : Nat
  hour : Nat
  minute : Nat
  second : Nat
  microsecond : Nat
  deriving DecidableEq, Repr

/-- Zero-pad a numeral to two digits. -/
def pad2 (n : Nat) : String :=
  if n < 10 then "0" ++ toString n else toString n

/-- Zero-pad a numeral to four digits. -/
def pad4 (n : Nat) : String :=
  if n < 10 then "000" ++ toString n
  else if n < 100 then "00" ++ toString n
  else if n < 1000 then "0" ++ toString n
  else toString n

/-- Zero-pad a numeral to six digits. -/
def pad6 (n : Nat) : String :=
  if n < 10 then "00000" ++ toString n
  else if n < 100 then "0000" ++ toString n
  else if n < 1000 then "000" ++ toString n
  else if n < 10000 then "00" ++ toString n
  else if n < 100000 then "0" ++ toString n
  else toString n

/-- Python's `datetime.isoformat()` for a naive datetime:
`YYYY-MM-DDTHH:MM:SS[.ffffff]`. -/
def PyDatetime.isoformat (d : PyDatetime) : String :=
  pad4 d.year ++ "-" ++ pad2 d.month ++ "-" ++ pad2 d.day ++ "T"
    ++ pad2 d.hour ++ ":" ++ pad2 d.minute ++ ":" ++ pad2 d.second
    ++ (if d.microsecond = 0 then "" else "." ++ pad6 d.microsecond)

/-- A Python value reachable from a State Record: the JSON-representable
values (`None`, booleans, integers, strings, lists, string-keyed dicts) plus
`datetime` objects, which only the encoder's custom rule can serialize. -/
inductive PyValue where
  | none : PyValue
  | bool (b : Bool) : PyValue
  | int (n : Int) : PyValue
  | str (s : String) : PyValue
  | list (elems : List PyValue) : PyValue
  | dict (fields : List (String × PyValue)) : PyValue
  | datetime (d : PyDatetime) : PyValue

mutual

/-- The JSON value that a CPython JSON encoder produces from a `PyValue` when
every `datetime` leaf is turned into the string `conv d` (JSON-representable
values pass through unchanged; this is the recursive traversal both of
`json.dumps` with a `default=` hook and of `JSONEncoder.encode`, with `conv`
standing for that hook applied to the datetime and coerced to text). -/
def pyToJsonWith (conv : PyDatetime → String) : PyValue → JsonValue
  | PyValue.none => JsonValue.null
  | PyValue.bool b => JsonValue.bool b
  | PyValue.int n => JsonValue.int n
  | PyValue.str s => JsonValue.str s
  | PyValue.list es => JsonValue.arr (pyToJsonWithList conv es)
  | PyValue.dict fs => JsonValue.obj (pyToJsonWithFields conv fs)
  | PyValue.datetime d => JsonValue.str (conv d)

/-- Map of `pyToJsonWith` over list elements. -/
def pyToJsonWithList (conv : PyDatetime → String) : List PyValue → List JsonValue
  | [] => []
  | v :: vs => pyToJsonWith conv v :: pyToJsonWithList conv vs

/-- Map of `pyToJsonWith` over dict fields. -/
def pyToJsonWithFields (conv : PyDatetime → String) :
    List (String × PyValue) → List (String × JsonValue)
  | [] => []
  | (k, v) :: fs => (k, pyToJsonWith conv v) :: pyToJsonWithFields conv fs

end

/-- Embeds `DateTimeJSONEncoder.default` (`__init__.py` lines 90-94): a
`datetime` is replaced by its `isoformat()` string; any other value reaching
`default` would raise `TypeError` in `super().default`, which cannot happen
for the JSON-representable `PyValue` leaves. -/
def DateTimeJSONEncoder.defaultHook : PyDatetime → String :=
  PyDatetime.isoformat

/-- Embeds the inherited `json.JSONEncoder.encode` method on a
`DateTimeJSONEncoder` instance: it serializes its argument to a JSON TEXT
(`datetime` leaves going through the subclass's `default`, i.e. isoformat).
Note the result of `encode` is a complete JSON document string — for a bare
datetime it is the isoformat WRAPPED IN QUOTES. -/
def DateTimeJSONEncoder.encodeMethod (o : PyValue) : String :=
  jsonDumps (pyToJsonWith DateTimeJSONEncoder.defaultHook o)

/-- The `default=` hook that `_encode_event` actually passes to `json.dumps`
(line 138): the bound method `self._encoder.encode`. CPython calls this hook
on each non-JSON-serializable leaf (here: each datetime) and then serializes
the returned object — a `str` — as a JSON string literal. -/
def encodeHook (d : PyDatetime) : String :=
  DateTimeJSONEncoder.encodeMethod (PyValue.datetime d)

/-- Embeds `json.dumps(obj=o, default=self._encoder.encode)` as called on
line 138: every datetime leaf becomes the JSON string whose contents are the
full JSON document `encode` returned for it (hence the double quoting). -/
def jsonDumpsWithEncodeHook (o : PyValue) : String :=
  jsonDumps (pyToJsonWith encodeHook o)

/-- UTF-8 encode one character (by code point). -/
def utf8Char (c : Char) : List Nat :=
  if c.toNat < 0x80 then [c.toNat]
  else if c.toNat < 0x800 then
    [0xc0 + c.toNat / 64, 0x80 + c.toNat % 64]
  else if c.toNat < 0x10000 then
    [0xe0 + c.toNat / 4096, 0x80 + c.toNat / 64 % 64, 0x80 + c.toNat % 64]
  else
    [0xf0 + c.toNat / 262144, 0x80 + c.toNat / 4096 % 64,
     0x80 + c.toNat / 64 % 64, 0x80 + c.toNat % 64]

/-- Embeds Python's `str.encode("utf-8")`: the byte sequence (as `List Nat`)
of the UTF-8 encoding of a string. -/
def utf8Encode (s : String) : List Nat :=
  (s.toList.map utf8Char).flatten

/-- Modelled from the spec: the Entity Filter is an external capability
("given an entity identifier, returns whether it is included"), a duck-typed
callable in the source; we model it as its pure predicate. -/
def EntityFilter : Type := String → Bool

/-- Modelled from the spec: `homeassistant.const.STATE_UNKNOWN`, the
"unknown" sentinel state value. -/
def STATE_UNKNOWN : String := "unknown"

/-- Modelled from the spec: `homeassistant.const.STATE_UNAVAILABLE`, the
"unavailable" sentinel state value. -/
def STATE_UNAVAILABLE : String := "unavailable"

/-- Modelled from the spec: `homeassistant.const.EVENT_STATE_CHANGED`, the
state-changed event type the manager listens for. -/
def EVENT_STATE_CHANGED : String := "state_changed"

/-- Modelled from the spec: a State Record — entity identifier, state value,
attribute mapping (string keys to arbitrary JSON-representable values, which
may include date/time values), last-changed/last-updated timestamps. This is
Home Assistant's external `State` object as the spec's data model defines it. -/
structure HAState where
  entity_id : String
  state : String
  attributes : List (String × PyValue)
  last_changed : PyDatetime
  last_updated : PyDatetime

/-- Modelled from the spec: the external `State.as_dict()` used on line 138,
per the wire-payload contract — "fields: entity identifier, state string,
attribute mapping, last-changed/last-updated as ISO-8601 strings" (the
timestamps are already isoformat strings in the dict; only attribute values
can still hold raw datetimes). -/
def HAState.as_dict (s : HAState) : PyValue :=
  PyValue.dict
    [("entity_id", PyValue.str s.entity_id),
     ("state", PyValue.str s.state),
     ("attributes", PyValue.dict s.attributes),
     ("last_changed", PyValue.str s.last_changed.isoformat),
     ("last_updated", PyValue.str s.last_updated.isoformat)]

/-- Modelled from the spec: the data of a state-changed event, exposing
`{entity_id, new_state | null}` (plus the old state). -/
structure EventStateChangedData where
  entity_id : String
  old_state : Option HAState
  new_state : Option HAState

/-- A state-changed Event as delivered by the external event source. -/
structure Event where
  data : EventStateChangedData

/-- A route: the source's `topics` entries are dicts with keys `topic` and
`filter` (schema lines 35-40, read on lines 154-155). -/
structure Route where
  topic : String
  filter : EntityFilter

/-- One externally observable lifecycle action of the manager: registering
`self.write` as a bus listener for an event type (line 144), starting the
producer (line 145), or stopping the producer (line 149). -/
inductive Action where
  | listen (event_type : String) : Action
  | producerStart : Action
  | producerStop : Action
  deriving DecidableEq, Repr

/-- The manager together with its observable world: the configuration fixed
in `__init__` (lines 100-125: the global entities filter and the route
table; no further assignment to either exists in the source) and the trace
of lifecycle actions performed so far on the external bus and producer. -/
structure ManagerState where
  entities_filter : EntityFilter
  topics : List Route
  trace : List Action

namespace KafkaManager

/-- Embeds `KafkaManager._encode_event` (lines 127-140): skip — return
`None` — when the event has no new state, when the state value is one of
`STATE_UNKNOWN`, `""`, `STATE_UNAVAILABLE`, or when the global or the
per-topic entity filter rejects the entity id; otherwise the UTF-8 bytes of
`json.dumps(obj=state.as_dict(), default=self._encoder.encode)`. -/
def _encode_event (entities_filter : EntityFilter) (event : Event)
    (topic_entities_filter : EntityFilter) : Option (List Nat) :=
  match event.data.new_state with
  | Option.none => Option.none
  | Option.some state =>
    if state.state = STATE_UNKNOWN ∨ state.state = "" ∨ state.state = STATE_UNAVAILABLE
        ∨ entities_filter state.entity_id = false
        ∨ topic_entities_filter state.entity_id = false then
      Option.none
    else
      Option.some (utf8Encode (jsonDumpsWithEncodeHook state.as_dict))

/-- Embeds the loop of `KafkaManager.write` (lines 151-159) as the sequence
of `send_and_wait(topic, payload)` calls it issues, in route-table order;
each call is awaited before the next route is evaluated. `if payload:` is
Python truthiness: both `None` and an empty byte string are skipped. -/
def writeCalls (entities_filter : EntityFilter) (topics : List Route)
    (event : Event) : List (String × List Nat) :=
  match topics with
  | [] => []
  | r :: rs =>
    match _encode_event entities_filter event r.filter with
    | Option.some p =>
      if p.isEmpty then writeCalls entities_filter rs event
      else (r.topic, p) :: writeCalls entities_filter rs event
    | Option.none => writeCalls entities_filter rs event

/-- Embeds the loop of `KafkaManager.write` when `send_and_wait` may raise:
`sendFails k` says whether the k-th issued send (counting from the given
counter) raises. The loop has no exception handler, so a raising send ends
the loop — its result is the calls issued so far (the raising one included)
and `false` for "the exception propagated to the caller". -/
def writeRun (sendFails : Nat → Bool) (entities_filter : EntityFilter)
    (topics : List Route) (event : Event) (k : Nat) :
    List (String × List Nat) × Bool :=
  match topics with
  | [] => ([], true)
  | r :: rs =>
    match _encode_event entities_filter event r.filter with
    | Option.some p =>
      if p.isEmpty then writeRun sendFails entities_filter rs event k
      else if sendFails k then ([(r.topic, p)], false)
      else
        let rest := writeRun sendFails entities_filter rs event (k + 1)
        ((r.topic, p) :: rest.1, rest.2)
    | Option.none => writeRun sendFails entities_filter rs event k

/-- Embeds `KafkaManager.start` (lines 142-145): register `self.write` as a
listener for `EVENT_STATE_CHANGED`, then `await self._producer.start()`,
both completed before `start` returns. No manager state is consulted — the
method has no guard of any kind. -/
def start (m : ManagerState) : ManagerState :=
  { m with trace :=
      m.trace ++ [Action.listen EVENT_STATE_CHANGED, Action.producerStart] }

/-- Embeds `KafkaManager.shutdown` (lines 147-149): unconditionally
`await self._producer.stop()`. -/
def shutdown (m : ManagerState) : ManagerState :=
  { m with trace := m.trace ++ [Action.producerStop] }

/-- Embeds `KafkaManager.write` at the manager level: the method reads
`self._topics` and `self._entities_filter`, assigns no attribute, and issues
the `writeCalls` sends. -/
def write (m : ManagerState) (event : Event) :
    ManagerState × List (String × List Nat) :=
  (m, writeCalls m.entities_filter m.topics event)

/-- Embeds `KafkaManager.write` at the manager level with a send-failure
oracle: whether or not a send raises, the method assigns no attribute, so
the manager state passes through unchanged. -/
def writeWithFailures (m : ManagerState) (sendFails : Nat → Bool)
    (event : Event) : ManagerState × (List (String × List Nat) × Bool) :=
  (m, writeRun sendFails m.entities_filter m.topics event 0)

end KafkaManager

/-! Concrete inputs used by the counterexample and witness theorems. -/

/-- A sample datetime, `datetime(2024, 1, 2, 3, 4, 5)`. -/
def c1Datetime : PyDatetime := ⟨2024, 1, 2, 3, 4, 5, 0⟩

/-- A state record whose attribute mapping holds a datetime value. -/
def c1State : HAState :=
  ⟨"sensor.door", "on", [("when", PyValue.datetime c1Datetime)], c1Datetime, c1Datetime⟩

/-- A state-changed event carrying `c1State` as its new state. -/
def c1Event : Event := ⟨⟨"sensor.door", Option.none, Option.some c1State⟩⟩

/-- A plain state record with no attributes. -/
def wState : HAState := ⟨"light.x", "on", [], c1Datetime, c1Datetime⟩

/-- A state-changed event carrying `wState` as its new state. -/
def wEvent : Event := ⟨⟨"light.x", Option.none, Option.some wState⟩⟩

/-- A state-changed event whose new state is absent (entity removed). -/
def wEventAbsent : Event := ⟨⟨"light.x", Option.none, Option.none⟩⟩

/-- The entity filter that includes everything. -/
def allowAll : EntityFilter := fun _ => true

/-- A freshly constructed manager: all-inclusive global filter, no routes,
nothing done yet. -/
def freshManager : ManagerState := ⟨allowAll, [], []⟩

/-- A manager with three all-inclusive routes. -/
def wManager : ManagerState :=
  ⟨allowAll, [⟨"t1", allowAll⟩, ⟨"t2", allowAll⟩, ⟨"t3", allowAll⟩], []⟩

/-! Helper lemmas. -/

/-- Every character encodes to at least one UTF-8 byte. -/
theorem utf8Char_ne_nil (c : Char) : utf8Char c ≠ [] := by
  unfold utf8Char
  split
  · simp
  · split
    · simp
    · split <;> simp

/-- UTF-8 encoding a nonempty string yields nonempty bytes. -/
theorem utf8Encode_ne_nil (s : String) (h : s.toList ≠ []) : utf8Encode s ≠ [] := by
  unfold utf8Encode
  cases hs : s.toList with
  | nil => exact absurd hs h
  | cons c cs =>
    simp only [hs, List.map_cons, List.flatten_cons, ne_eq, List.append_eq_nil]
    intro hcontra
    exact utf8Char_ne_nil c hcontra.1

/-- Serializing a JSON object yields a nonempty string (it opens with a
brace). -/
theorem jsonDumps_obj_toList_ne_nil (fs : List (String × JsonValue)) :
    (jsonDumps (JsonValue.obj fs)).toList ≠ [] := by
  show (("\x7b" ++ jsonDumpsObj fs ++ "\x7d" : String)).data ≠ []
  rw [String.data_append, String.data_append]
  simp

/-- The serialized `as_dict` payload is a nonempty string. -/
theorem jsonDumpsWithEncodeHook_as_dict_ne_nil (st : HAState) :
    (jsonDumpsWithEncodeHook st.as_dict).toList ≠ [] :=
  jsonDumps_obj_toList_ne_nil (pyToJsonWithFields encodeHook
    [("entity_id", PyValue.str st.entity_id),
     ("state", PyValue.str st.state),
     ("attributes", PyValue.dict st.attributes),
     ("last_changed", PyValue.str st.last_changed.isoformat),
     ("last_updated", PyValue.str st.last_updated.isoformat)])

/-- The payload `_encode_event` returns for a non-skipped event is a
nonempty byte string (so Python's `if payload:` truthiness test passes). -/
theorem _encode_event_payload_not_empty (f tf : EntityFilter) (e : Event)
    (p : List Nat) (h : KafkaManager._encode_event f e tf = Option.some p) :
    p.isEmpty = false := by
  unfold KafkaManager._encode_event at h
  cases hs : e.data.new_state with
  | none => rw [hs] at h; exact absurd h (by simp)
  | some st =>
    rw [hs] at h
    dsimp only at h
    by_cases hc : st.state = STATE_UNKNOWN ∨ st.state = "" ∨ st.state = STATE_UNAVAILABLE
        ∨ f st.entity_id = false ∨ tf st.entity_id = false
    · rw [if_pos hc] at h
      exact absurd h (by simp)
    · rw [if_neg hc] at h
      have hne : utf8Encode (jsonDumpsWithEncodeHook st.as_dict) ≠ [] :=
        utf8Encode_ne_nil _ (jsonDumpsWithEncodeHook_as_dict_ne_nil st)
      rw [(Option.some.inj h).symm]
      exact List.isEmpty_eq_false.mpr hne

/-- On a non-skipped event the encoder returns exactly the UTF-8 bytes of
the hooked `json.dumps` serialization of `state.as_dict()`. -/
theorem _encode_event_some (f tf : EntityFilter) (e : Event) (st : HAState)
    (hs : e.data.new_state = Option.some st)
    (h1 : st.state ≠ STATE_UNKNOWN) (h2 : st.state ≠ "")
    (h3 : st.state ≠ STATE_UNAVAILABLE)
    (h4 : f st.entity_id = true) (h5 : tf st.entity_id = true) :
    KafkaManager._encode_event f e tf
      = Option.some (utf8Encode (jsonDumpsWithEncodeHook st.as_dict)) := by
  unfold KafkaManager._encode_event
  rw [hs]
  simp [h1, h2, h3, h4, h5]

/-- The `write` loop's send-call list is the in-order selection of the
routes whose encoding is not a skip. -/
theorem writeCalls_eq_filterMap (f : EntityFilter) (topics : List Route)
    (e : Event) :
    KafkaManager.writeCalls f topics e
      = topics.filterMap (fun r =>
          (KafkaManager._encode_event f e r.filter).map (fun p => (r.topic, p))) := by
  induction topics with
  | nil => rfl
  | cons r rs ih =>
    unfold KafkaManager.writeCalls
    cases h : KafkaManager._encode_event f e r.filter with
    | none => simp [h, ih]
    | some p =>
      have hp : p.isEmpty = false := _encode_event_payload_not_empty f r.filter e p h
      simp [h, hp, ih]

/-- With a failure injected at the i-th issued send, the write loop issues
exactly the first i+1 of its sends — the failing one last — and the
exception propagates (no handler in the loop). -/
theorem writeRun_fail_take (f : EntityFilter) (e : Event) :
    ∀ (topics : List Route) (k i : Nat),
      i < (KafkaManager.writeCalls f topics e).length →
      KafkaManager.writeRun (fun j => j == k + i) f topics e k
        = ((KafkaManager.writeCalls f topics e).take (i + 1), false) := by
  intro topics
  induction topics with
  | nil =>
    intro k i hi
    simp [KafkaManager.writeCalls] at hi
  | cons r rs ih =>
    intro k i hi
    cases h : KafkaManager._encode_event f e r.filter with
    | none =>
      unfold KafkaManager.writeCalls at hi ⊢
      unfold KafkaManager.writeRun
      rw [h] at hi ⊢
      dsimp only at hi ⊢
      exact ih k i hi
    | some p =>
      have hp : p.isEmpty = false := _encode_event_payload_not_empty f r.filter e p h
      unfold KafkaManager.writeCalls at hi ⊢
      unfold KafkaManager.writeRun
      rw [h] at hi ⊢
      dsimp only at hi ⊢
      rw [hp] at hi ⊢
      simp only [Bool.false_eq_true, if_false] at hi ⊢
      cases i with
      | zero =>
        simp
      | succ i' =>
        have hko : (k == k + (i' + 1)) = false := by
          simp [Nat.beq_eq_true_eq]
        rw [hko]
        simp only [Bool.false_eq_true, if_false]
        have horacle : (fun j => j == k + (i' + 1)) = (fun j => j == (k + 1) + i') := by
          funext j
          congr 1
          omega
        rw [horacle]
        have hi' : i' < (KafkaManager.writeCalls f rs e).length := by
          simp at hi
          omega
        rw [ih (k + 1) i' hi']
        simp [List.take]

/-! Claim theorems. -/

/-- C1 (code bug): on an event whose state record carries the datetime
attribute `when = datetime(2024, 1, 2, 3, 4, 5)`, `_encode_event` emits the
serialization of a JSON object whose `attributes.when` field is the
DOUBLY-QUOTED string — JSON-decoding the payload yields the isoformat
wrapped in literal quote characters, not the isoformat itself. The cause:
line 138 passes `default=self._encoder.encode`, so the full JSON document
returned by `encode` (quotes included) is re-serialized as a string,
instead of the bare isoformat that `DateTimeJSONEncoder.default`
(lines 90-94) was written to produce. -/
theorem c1_datetime_attribute_double_encoded :
    KafkaManager._encode_event allowAll c1Event allowAll
      = Option.some (utf8Encode (jsonDumps (pyToJsonWith encodeHook c1State.as_dict)))
    ∧ jsonLookup (pyToJsonWith encodeHook c1State.as_dict) "attributes"
        = Option.some (JsonValue.obj
            [("when", JsonValue.str "\"2024-01-02T03:04:05\"")])
    ∧ c1Datetime.isoformat = "2024-01-02T03:04:05"
    ∧ JsonValue.str "\"2024-01-02T03:04:05\"" ≠ JsonValue.str "2024-01-02T03:04:05" := by
  refine ⟨rfl, rfl, rfl, ?_⟩
  intro hcontra
  injection hcontra with h
  exact absurd h (by decide)

/-- C2: `_encode_event` returns SKIP (`None`) if and only if the event's
new-state is absent, or the state value is `""`, `"unknown"` or
`"unavailable"`, or the entity id fails the global filter, or it fails the
per-destination filter; in particular an absent new-state is skipped
regardless of filters, and a globally excluded entity id is skipped even
when the per-destination filter would include it (AND semantics). -/
theorem c2_skip_iff (f tf : EntityFilter) (e : Event) :
    (KafkaManager._encode_event f e tf = Option.none ↔
      e.data.new_state = Option.none ∨
        ∃ st, e.data.new_state = Option.some st ∧
          (st.state = "" ∨ st.state = STATE_UNKNOWN ∨ st.state = STATE_UNAVAILABLE ∨
           f st.entity_id = false ∨ tf st.entity_id = false))
    ∧ (e.data.new_state = Option.none → KafkaManager._encode_event f e tf = Option.none)
    ∧ (∀ st, e.data.new_state = Option.some st → f st.entity_id = false →
        KafkaManager._encode_event f e tf = Option.none) := by
  have hiff : KafkaManager._encode_event f e tf = Option.none ↔
      e.data.new_state = Option.none ∨
        ∃ st, e.data.new_state = Option.some st ∧
          (st.state = "" ∨ st.state = STATE_UNKNOWN ∨ st.state = STATE_UNAVAILABLE ∨
           f st.entity_id = false ∨ tf st.entity_id = false) := by
    unfold KafkaManager._encode_event
    cases hs : e.data.new_state with
    | none => simp
    | some st =>
      dsimp only
      by_cases hc : st.state = STATE_UNKNOWN ∨ st.state = "" ∨ st.state = STATE_UNAVAILABLE
          ∨ f st.entity_id = false ∨ tf st.entity_id = false
      · rw [if_pos hc]
        simp only [Option.some.injEq, reduceCtorEq, false_or]
        constructor
        · intro _
          exact ⟨st, rfl, by tauto⟩
        · intro _
          trivial
      · rw [if_neg hc]
        push_neg at hc
        simp only [Option.some.injEq, reduceCtorEq, false_or, ne_eq]
        constructor
        · intro hcontra
          exact absurd hcontra (by simp)
        · rintro ⟨st', hst', hP⟩
          subst hst'
          rcases hP with h | h | h | h | h
          · exact absurd h hc.2.1
          · exact absurd h hc.1
          · exact absurd h hc.2.2.1
          · exact absurd h hc.2.2.2.1
          · exact absurd h hc.2.2.2.2
  refine ⟨hiff, ?_, ?_⟩
  · intro habs
    exact hiff.mpr (Or.inl habs)
  · intro st hst hglob
    exact hiff.mpr (Or.inr ⟨st, hst, by tauto⟩)

/-- C2 witness: an event with absent new-state is skipped under
all-inclusive filters. -/
theorem c2_skip_iff_witness :
    KafkaManager._encode_event allowAll wEventAbsent allowAll = Option.none :=
  (c2_skip_iff allowAll allowAll wEventAbsent).2.1 rfl

/-- C3: one invocation of `write` issues exactly one send per route whose
encoding is not a skip — K sends when exactly K of the N routes qualify —
paired with that route's topic, in route-table order (the loop body awaits
each `send_and_wait` before the next route is evaluated). -/
theorem c3_write_sends_per_qualifying_route (f : EntityFilter)
    (topics : List Route) (e : Event) :
    KafkaManager.writeCalls f topics e
      = topics.filterMap (fun r =>
          (KafkaManager._encode_event f e r.filter).map (fun p => (r.topic, p)))
    ∧ (KafkaManager.writeCalls f topics e).length
      = (topics.filter (fun r =>
          (KafkaManager._encode_event f e r.filter).isSome)).length := by
  refine ⟨writeCalls_eq_filterMap f topics e, ?_⟩
  rw [writeCalls_eq_filterMap]
  induction topics with
  | nil => rfl
  | cons r rs ih =>
    cases h : KafkaManager._encode_event f e r.filter <;>
      simp [List.filterMap_cons, List.filter_cons, h, ih]

/-- C4: for an event with a present new-state, a non-sentinel state value
and an entity id passing both filters, `_encode_event` returns the UTF-8
bytes of the serialization of a JSON object that contains the original
entity id and the original state string. -/
theorem c4_encode_is_json_with_id_and_state (f tf : EntityFilter) (e : Event)
    (st : HAState) (hs : e.data.new_state = Option.some st)
    (h1 : st.state ≠ "") (h2 : st.state ≠ STATE_UNKNOWN)
    (h3 : st.state ≠ STATE_UNAVAILABLE)
    (h4 : f st.entity_id = true) (h5 : tf st.entity_id = true) :
    ∃ v : JsonValue,
      KafkaManager._encode_event f e tf = Option.some (utf8Encode (jsonDumps v))
      ∧ (∃ fields, v = JsonValue.obj fields)
      ∧ jsonLookup v "entity_id" = Option.some (JsonValue.str st.entity_id)
      ∧ jsonLookup v "state" = Option.some (JsonValue.str st.state) := by
  refine ⟨pyToJsonWith encodeHook st.as_dict, ?_, ⟨_, rfl⟩, rfl, rfl⟩
  rw [_encode_event_some f tf e st hs h2 h1 h3 h4 h5]
  rfl

/-- C4 witness: a concrete `light.x` event with state "on" under
all-inclusive filters. -/
theorem c4_encode_is_json_witness :
    ∃ v : JsonValue,
      KafkaManager._encode_event allowAll wEvent allowAll
        = Option.some (utf8Encode (jsonDumps v))
      ∧ (∃ fields, v = JsonValue.obj fields)
      ∧ jsonLookup v "entity_id" = Option.some (JsonValue.str wState.entity_id)
      ∧ jsonLookup v "state" = Option.some (JsonValue.str wState.state) :=
  c4_encode_is_json_with_id_and_state allowAll allowAll wEvent wState rfl
    (by decide) (by decide) (by decide) rfl rfl

/-- C5: if the i-th issued send of a `write` invocation raises, the loop
issues no further send for that event (the attempted sends are exactly the
first i+1 of the qualifying ones, in order) and the error propagates to the
caller (`false` component); and since `write` assigns no manager attribute,
a failure while processing one event leaves the manager state unchanged, so
any later, independent `write` invocation behaves as if the first had never
run. -/
theorem c5_send_failure_aborts_remaining (m : ManagerState) (e : Event)
    (i : Nat)
    (hi : i < (KafkaManager.writeCalls m.entities_filter m.topics e).length) :
    (KafkaManager.writeWithFailures m (fun j => j == i) e).2
      = ((KafkaManager.writeCalls m.entities_filter m.topics e).take (i + 1), false)
    ∧ ∀ (fl₁ fl₂ : Nat → Bool) (e₁ e₂ : Event),
        KafkaManager.writeWithFailures
            ((KafkaManager.writeWithFailures m fl₁ e₁).1) fl₂ e₂
          = KafkaManager.writeWithFailures m fl₂ e₂ := by
  constructor
  · have h := writeRun_fail_take m.entities_filter e m.topics 0 i hi
    simpa [KafkaManager.writeWithFailures] using h
  · intro fl₁ fl₂ e₁ e₂
    rfl

/-- C5 witness: with three all-inclusive routes and a failure at the second
send, exactly the first two sends are attempted and the error propagates. -/
theorem c5_send_failure_witness :
    (KafkaManager.writeWithFailures wManager (fun j => j == 1) wEvent).2
      = ((KafkaManager.writeCalls wManager.entities_filter wManager.topics wEvent).take 2,
         false) :=
  (c5_send_failure_aborts_remaining wManager wEvent 1 (by decide)).1

/-- C6 counterexample: the claim "a second `start` on the same manager is
rejected — it must not register the listener or start the connection
again" is false on the code: starting a fresh manager twice registers the
state-changed listener twice and invokes the producer's start twice. -/
theorem c6_counterexample :
    ¬ ((KafkaManager.start (KafkaManager.start freshManager)).trace.count
          (Action.listen EVENT_STATE_CHANGED) = 1
       ∧ (KafkaManager.start (KafkaManager.start freshManager)).trace.count
          Action.producerStart = 1) := by
  decide

/-- C6 amended: `start` has no state-machine guard — every call, a second
one on the same manager included, registers the write listener for the
state-changed event type again and invokes the connection's start again. -/
theorem c6_no_double_start_guard (m : ManagerState) :
    (KafkaManager.start (KafkaManager.start m)).trace
      = m.trace ++ [Action.listen EVENT_STATE_CHANGED, Action.producerStart,
                    Action.listen EVENT_STATE_CHANGED, Action.producerStart] := by
  simp [KafkaManager.start]

/-- C7 counterexample: after `start` then two `shutdown` calls, the
producer's stop has been invoked twice, refuting "stop is invoked exactly
once; a second shutdown does not invoke stop again". -/
theorem c7_counterexample :
    ¬ (KafkaManager.shutdown (KafkaManager.shutdown
          (KafkaManager.start freshManager))).trace.count Action.producerStop = 1 := by
  decide

/-- C7 amended: `shutdown` unconditionally invokes the connection's stop on
every call — `start` followed by two `shutdown` calls invokes stop twice;
the manager has no once-only guard, and any safety of the second stop call
is delegated to the external broker connection. -/
theorem c7_every_shutdown_invokes_stop (m : ManagerState) :
    (KafkaManager.shutdown m).trace.count Action.producerStop
        = m.trace.count Action.producerStop + 1
    ∧ (KafkaManager.shutdown (KafkaManager.shutdown
          (KafkaManager.start m))).trace.count Action.producerStop
        = m.trace.count Action.producerStop + 2 := by
  constructor <;>
    simp [KafkaManager.shutdown, KafkaManager.start, List.count_append]

/-- C8: `start` performs its two steps in order — it first registers the
manager's write handler as a listener for the state-changed event type,
then starts the broker connection, the latter awaited to completion before
`start` returns (both actions are in the trace `start` leaves behind). -/
theorem c8_start_order (m : ManagerState) :
    (KafkaManager.start m).trace
      = m.trace ++ [Action.listen EVENT_STATE_CHANGED, Action.producerStart] :=
  rfl

/-- C9: the route table and both filters are fixed at construction — no
operation of the manager changes the route sequence or the global filter,
`write` leaves the whole manager state unchanged, and every `write`
iterates the routes in construction order. -/
theorem c9_config_fixed (m : ManagerState) (e : Event) :
    (KafkaManager.start m).entities_filter = m.entities_filter
    ∧ (KafkaManager.start m).topics = m.topics
    ∧ (KafkaManager.shutdown m).entities_filter = m.entities_filter
    ∧ (KafkaManager.shutdown m).topics = m.topics
    ∧ (KafkaManager.write m e).1 = m
    ∧ (KafkaManager.write m e).2
        = m.topics.filterMap (fun r =>
            (KafkaManager._encode_event m.entities_filter e r.filter).map
              (fun p => (r.topic, p))) :=
  ⟨rfl, rfl, rfl, rfl, rfl, writeCalls_eq_filterMap m.entities_filter m.topics e⟩

/-- C10: encoding and fan-out are deterministic — two runs of
`_encode_event` on equal inputs return the identical result, and the send
sequence of `write` is a function of only the event, the filters and the
route table. -/
theorem c10_encoding_deterministic (f₁ f₂ tf₁ tf₂ : EntityFilter)
    (e₁ e₂ : Event) (m₁ m₂ : ManagerState)
    (hf : f₁ = f₂) (htf : tf₁ = tf₂) (he : e₁ = e₂)
    (hmf : m₁.entities_filter = m₂.entities_filter)
    (hmt : m₁.topics = m₂.topics) :
    KafkaManager._encode_event f₁ e₁ tf₁ = KafkaManager._encode_event f₂ e₂ tf₂
    ∧ (KafkaManager.write m₁ e₁).2 = (KafkaManager.write m₂ e₂).2 := by
  subst hf htf he
  exact ⟨rfl, by simp [KafkaManager.write, hmf, hmt]⟩

/-- C10 witness: determinism applied at concrete equal inputs. -/
theorem c10_encoding_deterministic_witness :
    KafkaManager._encode_event allowAll wEvent allowAll
      = KafkaManager._encode_event allowAll wEvent allowAll
    ∧ (KafkaManager.write wManager wEvent).2
      = (KafkaManager.write wManager wEvent).2 :=
  c10_encoding_deterministic allowAll allowAll allowAll allowAll wEvent wEvent
    wManager wManager rfl rfl rfl rfl rfl

end KafkaMT
